import Mathlib

/-!
Verification of the signal detection engine in
`backend/services/signal_detection_service.py`.

The Python code is shallowly embedded: Python numbers are modelled as `ℚ`
(the code only compares, subtracts and takes absolute values, which on the
decimal inputs involved is exact), dynamically typed payload values as an
inductive `PyVal`, dictionaries with fixed key sets as structures with
`Option` fields, Python exceptions as `Except Unit`, and the external
collaborators (configuration store, indicator store, wall clock) as explicit
parameters in an `Env` record.
-/

/-- A dynamically typed Python value as it occurs in a market-data payload:
either a number or a string. -/
inductive PyVal where
  | pyNum (q : ℚ)
  | pyStr (s : String)
  deriving DecidableEq, Repr

/-- Python truthiness of an optional payload value: `None` and missing keys
are falsy, numbers are truthy iff nonzero, strings are truthy iff nonempty. -/
def pyTruthy : Option PyVal → Bool
  | none => false
  | some (.pyNum q) => q ≠ 0
  | some (.pyStr s) => s ≠ ""

/-- Value of a nonempty digit string. -/
def digitsVal (cs : List Char) : ℕ :=
  cs.foldl (fun n c => n * 10 + (c.toNat - 48)) 0

/-- Python `float(s)` on a string: optional sign, then decimal digits with an
optional fractional part. Returns `none` where `float` would raise
`ValueError`. -/
def pyFloatString (s : String) : Option ℚ :=
  let cs := s.toList
  let signAndBody : Bool × List Char :=
    match cs with
    | '-' :: rest => (true, rest)
    | '+' :: rest => (false, rest)
    | _ => (false, cs)
  let neg := signAndBody.1
  let body := signAndBody.2
  let ip := body.takeWhile (fun c => c ≠ '.')
  let rest := body.dropWhile (fun c => c ≠ '.')
  let mag : Option ℚ :=
    if ip.all Char.isDigit then
      match rest with
      | [] =>
        if ip.isEmpty then none
        else some (mkRat (digitsVal ip) 1)
      | '.' :: fp =>
        if fp.all Char.isDigit ∧ ¬(ip.isEmpty ∧ fp.isEmpty) then
          some (mkRat (digitsVal ip) 1 + mkRat (digitsVal fp) (10 ^ fp.length))
        else none
      | _ :: _ => none
    else none
  mag.map (fun q => if neg then -q else q)

/-- Python `float(v)` on a payload value; `none` models a raised
`ValueError`/`TypeError`. -/
def pyFloat : PyVal → Option ℚ
  | .pyNum q => some q
  | .pyStr s => pyFloatString s

/-- The `asset_ctx` sub-dictionary of a market-data payload; only the keys the
service reads are modelled. A missing key is `none`. -/
structure AssetCtx where
  openInterest : Option PyVal
  funding : Option PyVal
  deriving DecidableEq, Repr

/-- The `market_data` payload handed to `detect_signals`.
`market_data.get("asset_ctx", {})` with a missing key is the record with both
fields `none`. -/
structure MarketData where
  asset_ctx : AssetCtx
  deriving DecidableEq, Repr

/-- A `time_window` condition field: either a number of seconds or already a
period label string. -/
inductive TimeWindow where
  | secs (w : ℤ)
  | label (s : String)
  deriving DecidableEq, Repr

/-- The `trigger_condition` dictionary of a signal definition; each key may be
absent. -/
structure Condition where
  metric : Option String
  operator : Option String
  threshold : Option ℚ
  time_window : Option TimeWindow
  deriving DecidableEq, Repr

/-- A row of the `signal_definitions` cache. -/
structure SignalDef where
  id : ℤ
  signal_name : Option String
  description : Option String
  trigger_condition : Condition
  enabled : Bool
  deriving DecidableEq, Repr

/-- A row of the `signal_pools` cache. -/
structure SignalPool where
  id : ℤ
  pool_name : String
  signal_ids : List ℤ
  symbols : List String
  enabled : Bool
  deriving DecidableEq, Repr

/-- The dictionary returned for a fired trigger. -/
structure TriggerRecord where
  signal_id : ℤ
  signal_name : Option String
  symbol : String
  trigger_value : ℚ
  threshold : ℚ
  operator : String
  metric : String
  trigger_time : ℚ
  description : Option String
  deriving DecidableEq, Repr

/-- `SignalState` dataclass: per-(signal, symbol) edge-detection state. -/
structure SignalState where
  signal_id : ℤ
  symbol : String
  is_active : Bool := false
  last_value : Option ℚ := none
  last_check_time : ℚ := 0
  deriving DecidableEq, Repr

/-- The `signal_states` dictionary keyed by `(signal_id, symbol)`. -/
def StateMap := ℤ × String → Option SignalState

/-- Dictionary insertion/overwrite for the state map. -/
def StateMap.insert (m : StateMap) (k : ℤ × String) (v : SignalState) : StateMap :=
  fun k2 => if k2 = k then some v else m k2

/-- External indicator store: `get_indicator_value(db, symbol, indicator_type,
period)`; `none` covers both a miss and a raised error (both are swallowed by
`_get_metric_value`). -/
def IndicatorStore := String → String → String → Option ℚ

/-- `_time_window_to_period`: convert a time window (seconds or string) to a
period string. -/
def _time_window_to_period : TimeWindow → String
  | .label s => s
  | .secs w =>
    if w ≤ 60 then "1m"
    else if w ≤ 180 then "3m"
    else if w ≤ 300 then "5m"
    else if w ≤ 900 then "15m"
    else if w ≤ 1800 then "30m"
    else if w ≤ 3600 then "1h"
    else if w ≤ 7200 then "2h"
    else "4h"

/-- Python's built-in `abs` on a (rational) number, written executably. -/
def ratAbs (q : ℚ) : ℚ :=
  if q < 0 then -q else q

/-- `_evaluate_condition`: evaluate whether `value operator threshold` holds;
unknown operators yield `false`. -/
def _evaluate_condition (value : ℚ) (operator : String) (threshold : ℚ) : Bool :=
  if operator = ">" then value > threshold
  else if operator = ">=" then value ≥ threshold
  else if operator = "<" then value < threshold
  else if operator = "<=" then value ≤ threshold
  else if operator = "==" then ratAbs (value - threshold) < mkRat 1 1000000000
  else if operator = "!=" then ratAbs (value - threshold) ≥ mkRat 1 1000000000
  else if operator = "abs_greater_than" ∨ operator = "abs_gt" then ratAbs value > threshold
  else if operator = "abs_less_than" ∨ operator = "abs_lt" then ratAbs value < threshold
  else false

/-- `_get_oi`: `float(oi) if oi else None`; `.error` models the `ValueError`
raised by `float` on an unparseable truthy string. -/
def _get_oi (market_data : MarketData) : Except Unit (Option ℚ) :=
  let oi := market_data.asset_ctx.openInterest
  if pyTruthy oi then
    match oi with
    | some v =>
      match pyFloat v with
      | some q => .ok (some q)
      | none => .error ()
    | none => .error ()
  else .ok none

/-- `_get_funding_rate`: `float(funding) if funding else None`. -/
def _get_funding_rate (market_data : MarketData) : Except Unit (Option ℚ) :=
  let funding := market_data.asset_ctx.funding
  if pyTruthy funding then
    match funding with
    | some v =>
      match pyFloat v with
      | some q => .ok (some q)
      | none => .error ()
    | none => .error ()
  else .ok none

/-- The `indicator_map` dictionary of `_get_metric_value`. -/
def indicator_map : String → Option String
  | "oi_delta_percent" => some "OI_DELTA"
  | "cvd" => some "CVD"
  | "depth_ratio" => some "DEPTH"
  | "order_imbalance" => some "IMBALANCE"
  | "taker_buy_ratio" => some "TAKER"
  | _ => none

/-- `_get_metric_value`: resolve a metric either directly from the payload or
through the external indicator store; every raised error is caught and yields
`None`. -/
def _get_metric_value (ind : IndicatorStore) (metric symbol : String)
    (market_data : MarketData) (time_window : TimeWindow) : Option ℚ :=
  let body : Except Unit (Option ℚ) :=
    if metric = "oi" then _get_oi market_data
    else if metric = "funding_rate" then _get_funding_rate market_data
    else
      let period := _time_window_to_period time_window
      match indicator_map metric with
      | none => .ok none
      | some indicator_type => .ok (ind symbol indicator_type period)
  match body with
  | .ok v => v
  | .error _ => none

/-- `_check_signal_trigger`: evaluate one signal for one symbol against the
current market data, mutating the edge state; `now` stands for `time.time()`.
Returns the optional trigger record and the updated state map. -/
def _check_signal_trigger (ind : IndicatorStore) (now : ℚ) (signal_id : ℤ)
    (signal_def : SignalDef) (symbol : String) (market_data : MarketData)
    (signal_states : StateMap) : Option TriggerRecord × StateMap :=
  let condition := signal_def.trigger_condition
  let time_window := condition.time_window.getD (.secs 60)
  match condition.metric, condition.operator, condition.threshold with
  | some metric, some operator, some threshold =>
    if metric = "" ∨ operator = "" then (none, signal_states)
    else
      match _get_metric_value ind metric symbol market_data time_window with
      | none => (none, signal_states)
      | some current_value =>
        let condition_met := _evaluate_condition current_value operator threshold
        let state_key := (signal_id, symbol)
        let states1 :=
          match signal_states state_key with
          | some _ => signal_states
          | none => signal_states.insert state_key { signal_id, symbol }
        let state := (states1 state_key).getD { signal_id, symbol }
        let should_trigger := condition_met && !state.is_active
        let states2 := states1.insert state_key
          { state with
              is_active := condition_met
              last_value := some current_value
              last_check_time := now }
        if should_trigger then
          (some { signal_id
                  signal_name := signal_def.signal_name
                  symbol
                  trigger_value := current_value
                  threshold, operator, metric
                  trigger_time := now
                  description := signal_def.description },
           states2)
        else (none, states2)
  | _, _, _ => (none, signal_states)

/-- The mutable fields of the `SignalDetectionService` singleton. -/
structure ServiceState where
  signal_states : StateMap
  _signal_pools_cache : List SignalPool
  _signals_cache : List SignalDef
  _cache_time : ℚ

/-- `self._cache_ttl`. -/
def _cache_ttl : ℚ := 60

/-- The environment of one call: the wall clock and the external
collaborators. `fetchPools`/`fetchSignals` are the two configuration-store
queries of a refresh; `.error` models a raised database error. -/
structure Env where
  now : ℚ
  fetchPools : Except Unit (List SignalPool)
  fetchSignals : Except Unit (List SignalDef)
  indicators : IndicatorStore

/-- Lookup in the `_signals_cache` dictionary (keyed by id, later rows
overwrite earlier ones, as in the Python dict comprehension). -/
def sigLookup (cache : List SignalDef) (i : ℤ) : Option SignalDef :=
  cache.reverse.find? (fun d => d.id = i)

/-- `_refresh_cache_if_needed`: refresh both caches when the TTL expired.
The pools cache is assigned before the signals query runs, so a failure of
the second query leaves the pools cache already replaced; the timestamp
advances only after both assignments. -/
def _refresh_cache_if_needed (env : Env) (s : ServiceState) : ServiceState :=
  if env.now - s._cache_time < _cache_ttl then s
  else
    match env.fetchPools with
    | .error _ => s
    | .ok pools =>
      match env.fetchSignals with
      | .error _ => { s with _signal_pools_cache := pools }
      | .ok sigs =>
        { s with
            _signal_pools_cache := pools
            _signals_cache := sigs
            _cache_time := env.now }

/-- The body of the `for signal_id in signal_ids` loop of `detect_signals`:
skip absent or disabled definitions, otherwise run the trigger check and
append any record. -/
def detectStep (env : Env) (cache : List SignalDef) (symbol : String)
    (market_data : MarketData) (acc : List TriggerRecord × StateMap)
    (signal_id : ℤ) : List TriggerRecord × StateMap :=
  match sigLookup cache signal_id with
  | none => acc
  | some signal_def =>
    if ¬signal_def.enabled then acc
    else
      match _check_signal_trigger env.indicators env.now signal_id signal_def
          symbol market_data acc.2 with
      | (some tr, states2) => (acc.1 ++ [tr], states2)
      | (none, states2) => (acc.1, states2)

/-- `detect_signals`: the main entry point. Refreshes the cache, filters the
enabled pools monitoring the symbol, deduplicates their signal ids and checks
each signal, accumulating the triggered records. In this embedding no step
raises (each helper contains its own failures), so the top-level `except` is
unreachable and the function is total. -/
def detect_signals (env : Env) (s : ServiceState) (symbol : String)
    (market_data : MarketData) : List TriggerRecord × ServiceState :=
  let s1 := _refresh_cache_if_needed env s
  let relevant_pools := s1._signal_pools_cache.filter
    (fun pool => pool.enabled ∧ symbol ∈ pool.symbols)
  if relevant_pools.isEmpty then ([], s1)
  else
    let signal_ids := (relevant_pools.flatMap (fun pool => pool.signal_ids)).dedup
    let r := signal_ids.foldl
      (detectStep env s1._signals_cache symbol market_data) ([], s1.signal_states)
    (r.1, { s1 with signal_states := r.2 })

/-- The activation flag currently stored for a pair (`false` when no entry
exists yet, matching the `SignalState` default). -/
def pairActive (states : StateMap) (k : ℤ × String) : Bool :=
  match states k with
  | some st => st.is_active
  | none => false

/-- Iterate `_check_signal_trigger` for one fixed (signal, symbol) pair over a
sequence of timestamped market updates, collecting each evaluation's optional
trigger record. -/
def runPair (ind : IndicatorStore) (signal_id : ℤ) (sd : SignalDef)
    (symbol : String) :
    List (ℚ × MarketData) → StateMap → List (Option TriggerRecord) × StateMap
  | [], states => ([], states)
  | (now, md) :: rest, states =>
    let r := _check_signal_trigger ind now signal_id sd symbol md states
    let rr := runPair ind signal_id sd symbol rest r.2
    (r.1 :: rr.1, rr.2)

/-- The condition outcome of one evaluation, as the source computes it:
resolve the metric, then apply the operator against the threshold; `none`
when the condition is missing a required key or the metric does not
resolve. -/
def condMetOn (ind : IndicatorStore) (sd : SignalDef) (symbol : String)
    (md : MarketData) : Option Bool :=
  match sd.trigger_condition.metric, sd.trigger_condition.operator,
      sd.trigger_condition.threshold with
  | some metric, some operator, some threshold =>
    (_get_metric_value ind metric symbol md
        (sd.trigger_condition.time_window.getD (.secs 60))).map
      (fun v => _evaluate_condition v operator threshold)
  | _, _, _ => none

/-- Spec-shaped edge-trigger law (from the claim's words, for comparison with
the code): given the stored flag before the first evaluation and the sequence
of condition outcomes, a record is produced exactly when the outcome is true
and the flag was false beforehand, the flag becoming the outcome. -/
def specEdgeOutputs : Bool → List Bool → List Bool
  | _, [] => []
  | prev, m :: ms => (m && !prev) :: specEdgeOutputs m ms

/-- The pool of the end-to-end scenario. -/
def scenarioPool : SignalPool := ⟨1, "P", [1], ["BTC"], true⟩

/-- Signal S1 of the end-to-end scenario. -/
def scenarioS1 : SignalDef :=
  ⟨1, some "S1", none, ⟨some "oi", some ">", some 1000000, none⟩, true⟩

/-- Environment of the end-to-end scenario: the cache is fresh, so the
configuration store is never queried. -/
def scenarioEnv : Env := ⟨100, .error (), .error (), fun _ _ _ => none⟩

/-- Initial service state of the end-to-end scenario. -/
def scenarioInit : ServiceState := ⟨fun _ => none, [scenarioPool], [scenarioS1], 100⟩

/-- A market update carrying the given numeric open interest. -/
def oiUpdate (v : ℚ) : MarketData := ⟨⟨some (.pyNum v), none⟩⟩

/-- Results of the five successive scenario calls. -/
def scenarioR1 : List TriggerRecord × ServiceState :=
  detect_signals scenarioEnv scenarioInit "BTC" (oiUpdate 900000)

/-- Second scenario call. -/
def scenarioR2 : List TriggerRecord × ServiceState :=
  detect_signals scenarioEnv scenarioR1.2 "BTC" (oiUpdate 1100000)

/-- Third scenario call. -/
def scenarioR3 : List TriggerRecord × ServiceState :=
  detect_signals scenarioEnv scenarioR2.2 "BTC" (oiUpdate 1100000)

/-- Fourth scenario call. -/
def scenarioR4 : List TriggerRecord × ServiceState :=
  detect_signals scenarioEnv scenarioR3.2 "BTC" (oiUpdate 900000)

/-- Fifth scenario call. -/
def scenarioR5 : List TriggerRecord × ServiceState :=
  detect_signals scenarioEnv scenarioR4.2 "BTC" (oiUpdate 1200000)

/-- The edge state after the first scenario call: the entry is created
inactive and then refreshed with the observed value. -/
def scenarioMap1 : StateMap :=
  StateMap.insert
    (StateMap.insert (fun _ => none) (1, "BTC") ⟨1, "BTC", false, none, 0⟩)
    (1, "BTC") ⟨1, "BTC", false, some 900000, 100⟩

/-- The edge state after the second scenario call (activation). -/
def scenarioMap2 : StateMap :=
  StateMap.insert scenarioMap1 (1, "BTC") ⟨1, "BTC", true, some 1100000, 100⟩

/-- The edge state after the third scenario call (still active). -/
def scenarioMap3 : StateMap :=
  StateMap.insert scenarioMap2 (1, "BTC") ⟨1, "BTC", true, some 1100000, 100⟩

/-- The edge state after the fourth scenario call (deactivation). -/
def scenarioMap4 : StateMap :=
  StateMap.insert scenarioMap3 (1, "BTC") ⟨1, "BTC", false, some 900000, 100⟩

/-- The edge state after the fifth scenario call (re-activation). -/
def scenarioMap5 : StateMap :=
  StateMap.insert scenarioMap4 (1, "BTC") ⟨1, "BTC", true, some 1200000, 100⟩

/-- The scenario service state with the given edge states. -/
def scenarioSvc (m : StateMap) : ServiceState :=
  ⟨m, [scenarioPool], [scenarioS1], 100⟩

/-- The executable `ratAbs` agrees with the mathematical absolute value. -/
theorem ratAbs_eq_abs (q : ℚ) : ratAbs q = |q| := by
  unfold ratAbs
  split_ifs with h
  · exact (abs_of_neg h).symm
  · exact (abs_of_nonneg (le_of_not_lt h)).symm

theorem fst_ite_pair {α β : Type} {c : Prop} [Decidable c] (x y : α) (m m2 : β) :
    (if c then (x, m) else (y, m2)).1 = if c then x else y := by
  split <;> rfl

theorem snd_ite_pair {α β : Type} {c : Prop} [Decidable c] (x y : α) (m : β) :
    (if c then (x, m) else (y, m)).2 = m := by
  split <;> rfl

theorem StateMap.insert_same (m : StateMap) (k : ℤ × String) (v : SignalState) :
    m.insert k v k = some v := by
  simp [StateMap.insert]

theorem StateMap.insert_other (m : StateMap) (k k2 : ℤ × String) (v : SignalState)
    (h : k2 ≠ k) : m.insert k v k2 = m k2 := by
  simp [StateMap.insert, h]

/-- One evaluation of a well-formed, resolvable signal: the record fires iff
the condition is met and the stored flag was false beforehand; the stored
state's activation flag, last value and last check time are refreshed; other
keys are untouched. -/
theorem check_signal_trigger_spec (ind : IndicatorStore) (now : ℚ) (sid : ℤ)
    (sd : SignalDef) (sym : String) (md : MarketData) (states : StateMap)
    (ms os : String) (t v : ℚ)
    (hm : sd.trigger_condition.metric = some ms) (hms : ms ≠ "")
    (ho : sd.trigger_condition.operator = some os) (hos : os ≠ "")
    (ht : sd.trigger_condition.threshold = some t)
    (hv : _get_metric_value ind ms sym md
        (sd.trigger_condition.time_window.getD (.secs 60)) = some v) :
    ((_check_signal_trigger ind now sid sd sym md states).1 =
      if _evaluate_condition v os t && !pairActive states (sid, sym) then
        some ⟨sid, sd.signal_name, sym, v, t, os, ms, now, sd.description⟩
      else none) ∧
    ((_check_signal_trigger ind now sid sd sym md states).2 (sid, sym)).map
        (fun st => (st.is_active, st.last_value, st.last_check_time)) =
      some (_evaluate_condition v os t, some v, now) ∧
    ∀ k, k ≠ (sid, sym) →
      (_check_signal_trigger ind now sid sd sym md states).2 k = states k := by
  have hguard : ¬(ms = "" ∨ os = "") := by
    rintro (h | h)
    · exact hms h
    · exact hos h
  unfold _check_signal_trigger
  simp only [hm, ho, ht, hv, if_neg hguard]
  cases hs : states (sid, sym) with
  | none =>
    simp only [hs, pairActive, StateMap.insert_same, Option.getD_some,
      fst_ite_pair, snd_ite_pair, StateMap.insert_same, Option.map_some]
    refine ⟨trivial, rfl, fun k hk => ?_⟩
    rw [StateMap.insert_other _ _ _ _ hk, StateMap.insert_other _ _ _ _ hk]
  | some st =>
    simp only [hs, pairActive, StateMap.insert_same, Option.getD_some,
      fst_ite_pair, snd_ite_pair, Option.map_some]
    refine ⟨trivial, rfl, fun k hk => ?_⟩
    rw [StateMap.insert_other _ _ _ _ hk]

/-- C3: the operator evaluator implements the documented comparison semantics
for every rational value and threshold, returns `false` for every other
operator string (and, being a total function, never raises), and satisfies
the spec's concrete examples. -/
theorem operator_evaluator_correct :
    (∀ v t : ℚ,
      _evaluate_condition v ">" t = decide (v > t) ∧
      _evaluate_condition v ">=" t = decide (v ≥ t) ∧
      _evaluate_condition v "<" t = decide (v < t) ∧
      _evaluate_condition v "<=" t = decide (v ≤ t) ∧
      _evaluate_condition v "==" t = decide (|v - t| < 1 / 1000000000) ∧
      _evaluate_condition v "!=" t = decide (|v - t| ≥ 1 / 1000000000) ∧
      _evaluate_condition v "abs_greater_than" t = decide (|v| > t) ∧
      _evaluate_condition v "abs_gt" t = decide (|v| > t) ∧
      _evaluate_condition v "abs_less_than" t = decide (|v| < t) ∧
      _evaluate_condition v "abs_lt" t = decide (|v| < t)) ∧
    (∀ (v t : ℚ) (op : String),
      op ∉ [">", ">=", "<", "<=", "==", "!=", "abs_greater_than", "abs_gt",
        "abs_less_than", "abs_lt"] →
      _evaluate_condition v op t = false) ∧
    _evaluate_condition 5 ">" 3 = true ∧
    _evaluate_condition 3 ">" 3 = false ∧
    _evaluate_condition 3 ">=" 3 = true ∧
    _evaluate_condition (10000000001 / 10000000000) "==" 1 = true ∧
    _evaluate_condition (-5) "abs_gt" 3 = true ∧
    _evaluate_condition 2 "abs_lt" 3 = true := by
  have hmk : (mkRat 1 1000000000 : ℚ) = 1 / 1000000000 := by
    rw [Rat.mkRat_eq_divInt, Rat.divInt_eq_div]
    norm_num
  refine ⟨fun v t => ⟨rfl, rfl, rfl, rfl, ?_, ?_, ?_, ?_, ?_, ?_⟩,
    fun v t op hop => ?_,
    of_decide_eq_true (by with_unfolding_all rfl),
    of_decide_eq_true (by with_unfolding_all rfl),
    of_decide_eq_true (by with_unfolding_all rfl),
    of_decide_eq_true (by with_unfolding_all rfl),
    of_decide_eq_true (by with_unfolding_all rfl),
    of_decide_eq_true (by with_unfolding_all rfl)⟩
  · show decide (ratAbs (v - t) < mkRat 1 1000000000) = _
    rw [ratAbs_eq_abs, hmk]
  · show decide (ratAbs (v - t) ≥ mkRat 1 1000000000) = _
    rw [ratAbs_eq_abs, hmk]
  · show decide (ratAbs v > t) = _
    rw [ratAbs_eq_abs]
  · show decide (ratAbs v > t) = _
    rw [ratAbs_eq_abs]
  · show decide (ratAbs v < t) = _
    rw [ratAbs_eq_abs]
  · show decide (ratAbs v < t) = _
    rw [ratAbs_eq_abs]
  · have h : op ≠ ">" ∧ op ≠ ">=" ∧ op ≠ "<" ∧ op ≠ "<=" ∧ op ≠ "==" ∧ op ≠ "!=" ∧
        op ≠ "abs_greater_than" ∧ op ≠ "abs_gt" ∧ op ≠ "abs_less_than" ∧
        op ≠ "abs_lt" := by
      simpa [not_or] using hop
    obtain ⟨h1, h2, h3, h4, h5, h6, h7, h8, h9, h10⟩ := h
    unfold _evaluate_condition
    rw [if_neg h1, if_neg h2, if_neg h3, if_neg h4, if_neg h5, if_neg h6,
      if_neg ?_, if_neg ?_]
    · rintro (h | h)
      exacts [h9 h, h10 h]
    · rintro (h | h)
      exacts [h7 h, h8 h]

/-- C4: the period bucketer maps a duration in seconds to the period of the
documented inclusive upper bound, passes string inputs through unchanged, and
satisfies the spec's boundary examples. -/
theorem period_bucketer_correct :
    (∀ w : ℤ,
      (w ≤ 60 → _time_window_to_period (.secs w) = "1m") ∧
      (60 < w → w ≤ 180 → _time_window_to_period (.secs w) = "3m") ∧
      (180 < w → w ≤ 300 → _time_window_to_period (.secs w) = "5m") ∧
      (300 < w → w ≤ 900 → _time_window_to_period (.secs w) = "15m") ∧
      (900 < w → w ≤ 1800 → _time_window_to_period (.secs w) = "30m") ∧
      (1800 < w → w ≤ 3600 → _time_window_to_period (.secs w) = "1h") ∧
      (3600 < w → w ≤ 7200 → _time_window_to_period (.secs w) = "2h") ∧
      (7200 < w → _time_window_to_period (.secs w) = "4h")) ∧
    (∀ s : String, _time_window_to_period (.label s) = s) ∧
    _time_window_to_period (.secs 60) = "1m" ∧
    _time_window_to_period (.secs 61) = "3m" ∧
    _time_window_to_period (.secs 7200) = "2h" ∧
    _time_window_to_period (.secs 7201) = "4h" := by
  refine ⟨fun w => ⟨?_, ?_, ?_, ?_, ?_, ?_, ?_, ?_⟩, fun s => rfl, by decide,
    by decide, by decide, by decide⟩
  all_goals
    intros
    simp only [_time_window_to_period]
    split_ifs <;> first | rfl | (exfalso; omega)

/-- C4 witness: boundary instances obtained from the general theorem. -/
theorem period_bucketer_correct_witness :
    _time_window_to_period (.secs 60) = "1m" ∧
    _time_window_to_period (.secs 61) = "3m" ∧
    _time_window_to_period (.secs 7200) = "2h" ∧
    _time_window_to_period (.secs 7201) = "4h" ∧
    _time_window_to_period (.label "1d") = "1d" :=
  ⟨(period_bucketer_correct.1 60).1 (by decide),
   (period_bucketer_correct.1 61).2.1 (by decide) (by decide),
   (period_bucketer_correct.1 7200).2.2.2.2.2.2.1 (by decide) (by decide),
   (period_bucketer_correct.1 7201).2.2.2.2.2.2.2 (by decide),
   period_bucketer_correct.2.1 "1d"⟩

/-- C3 witness: an unknown operator evaluates to `false`, by the general
theorem. -/
theorem operator_evaluator_correct_witness :
    _evaluate_condition 5 "between" 3 = false ∧ _evaluate_condition 5 ">" 3 = true :=
  ⟨operator_evaluator_correct.2.1 5 3 "between" (by decide),
   (operator_evaluator_correct.1 5 3).1.trans (by decide)⟩

set_option maxRecDepth 4000 in
/-- C2: the end-to-end scenario. With one enabled pool monitoring "BTC" and
one enabled signal (metric "oi", operator ">", threshold 1000000), the five
successive `detect_signals` calls on open interest 900000, 1100000, 1100000,
900000, 1200000 return an empty list, one record with trigger value 1100000,
an empty list, an empty list (the pair's state becoming inactive), and one
new record. -/
theorem end_to_end_scenario :
    scenarioR1.1 = [] ∧
    scenarioR2.1 = [⟨1, some "S1", "BTC", 1100000, 1000000, ">", "oi", 100, none⟩] ∧
    scenarioR3.1 = [] ∧
    scenarioR4.1 = [] ∧
    pairActive scenarioR4.2.signal_states (1, "BTC") = false ∧
    scenarioR5.1 = [⟨1, some "S1", "BTC", 1200000, 1000000, ">", "oi", 100, none⟩] := by
  have h1 : scenarioR1 = ([], scenarioSvc scenarioMap1) := by
    with_unfolding_all rfl
  have h2 : detect_signals scenarioEnv (scenarioSvc scenarioMap1) "BTC" (oiUpdate 1100000) =
      ([⟨1, some "S1", "BTC", 1100000, 1000000, ">", "oi", 100, none⟩],
        scenarioSvc scenarioMap2) := by
    with_unfolding_all rfl
  have h3 : detect_signals scenarioEnv (scenarioSvc scenarioMap2) "BTC" (oiUpdate 1100000) =
      ([], scenarioSvc scenarioMap3) := by
    with_unfolding_all rfl
  have h4 : detect_signals scenarioEnv (scenarioSvc scenarioMap3) "BTC" (oiUpdate 900000) =
      ([], scenarioSvc scenarioMap4) := by
    with_unfolding_all rfl
  have h5 : detect_signals scenarioEnv (scenarioSvc scenarioMap4) "BTC" (oiUpdate 1200000) =
      ([⟨1, some "S1", "BTC", 1200000, 1000000, ">", "oi", 100, none⟩],
        scenarioSvc scenarioMap5) := by
    with_unfolding_all rfl
  have e2 : scenarioR2 =
      ([⟨1, some "S1", "BTC", 1100000, 1000000, ">", "oi", 100, none⟩],
        scenarioSvc scenarioMap2) := by
    show detect_signals scenarioEnv scenarioR1.2 "BTC" (oiUpdate 1100000) = _
    rw [h1]
    exact h2
  have e3 : scenarioR3 = ([], scenarioSvc scenarioMap3) := by
    show detect_signals scenarioEnv scenarioR2.2 "BTC" (oiUpdate 1100000) = _
    rw [e2]
    exact h3
  have e4 : scenarioR4 = ([], scenarioSvc scenarioMap4) := by
    show detect_signals scenarioEnv scenarioR3.2 "BTC" (oiUpdate 900000) = _
    rw [e3]
    exact h4
  have e5 : scenarioR5 =
      ([⟨1, some "S1", "BTC", 1200000, 1000000, ">", "oi", 100, none⟩],
        scenarioSvc scenarioMap5) := by
    show detect_signals scenarioEnv scenarioR4.2 "BTC" (oiUpdate 1200000) = _
    rw [e4]
    exact h5
  refine ⟨by rw [h1], by rw [e2], by rw [e3], by rw [e4], ?_, by rw [e5]⟩
  rw [e4]
  with_unfolding_all rfl

/-- C5 counterexample: an asset context carrying open interest 0 — a
perfectly parseable numeric value — makes the resolver return an absent
result instead of 0, because `float(oi) if oi else None` treats the number 0
as falsy (and likewise for a funding rate of 0). -/
theorem metric_resolver_zero_counterexample :
    pyFloat (.pyNum 0) = some 0 ∧
    _get_metric_value (fun _ _ _ => none) "oi" "BTC"
      ⟨⟨some (.pyNum 0), none⟩⟩ (.secs 60) = none ∧
    _get_metric_value (fun _ _ _ => none) "funding_rate" "BTC"
      ⟨⟨none, some (.pyNum 0)⟩⟩ (.secs 60) = none :=
  of_decide_eq_true (by with_unfolding_all rfl)

/-- C5 amended: for the directly embedded metrics "oi" and "funding_rate",
a truthy field value (nonzero number, nonempty string) that parses yields the
coerced number; a falsy value (the number 0, an empty string), an absent
field, or an unparseable truthy string all yield an absent result, and no
error escapes the resolver. -/
theorem metric_resolver_amended :
    ∀ (ind : IndicatorStore) (symbol : String) (tw : TimeWindow)
      (other : Option PyVal) (v : PyVal) (q : ℚ),
      (pyTruthy (some v) = true → pyFloat v = some q →
        _get_metric_value ind "oi" symbol ⟨⟨some v, other⟩⟩ tw = some q ∧
        _get_metric_value ind "funding_rate" symbol ⟨⟨other, some v⟩⟩ tw = some q) ∧
      (pyTruthy (some v) = false ∨ pyFloat v = none →
        _get_metric_value ind "oi" symbol ⟨⟨some v, other⟩⟩ tw = none ∧
        _get_metric_value ind "funding_rate" symbol ⟨⟨other, some v⟩⟩ tw = none) ∧
      _get_metric_value ind "oi" symbol ⟨⟨none, other⟩⟩ tw = none ∧
      _get_metric_value ind "funding_rate" symbol ⟨⟨other, none⟩⟩ tw = none := by
  intro ind symbol tw other v q
  refine ⟨fun ht hf => ⟨?_, ?_⟩, fun h => ?_, ?_, ?_⟩
  · simp [_get_metric_value, _get_oi, ht, hf]
  · simp [_get_metric_value, _get_funding_rate, ht, hf]
  · rcases h with h | h
    · constructor
      · simp [_get_metric_value, _get_oi, h]
      · simp [_get_metric_value, _get_funding_rate, h]
    · cases htr : pyTruthy (some v)
      · constructor
        · simp [_get_metric_value, _get_oi, htr]
        · simp [_get_metric_value, _get_funding_rate, htr]
      · constructor
        · simp [_get_metric_value, _get_oi, htr, h]
        · simp [_get_metric_value, _get_funding_rate, htr, h]
  · simp [_get_metric_value, _get_oi, pyTruthy]
  · simp [_get_metric_value, _get_funding_rate, pyTruthy]

set_option maxRecDepth 2000 in
/-- C5 witness: a parseable decimal string is coerced; an unparseable string
yields an absent result without an error. -/
theorem metric_resolver_amended_witness :
    _get_metric_value (fun _ _ _ => none) "oi" "BTC"
      ⟨⟨some (.pyStr "12.5"), none⟩⟩ (.secs 60) = some (mkRat 25 2) ∧
    _get_metric_value (fun _ _ _ => none) "funding_rate" "BTC"
      ⟨⟨none, some (.pyStr "abc")⟩⟩ (.secs 60) = none :=
  ⟨((metric_resolver_amended (fun _ _ _ => none) "BTC" (.secs 60) none
        (.pyStr "12.5") (mkRat 25 2)).1
      (by decide)
      (of_decide_eq_true (by with_unfolding_all rfl))).1,
   ((metric_resolver_amended (fun _ _ _ => none) "BTC" (.secs 60) none
        (.pyStr "abc") 0).2.1
      (Or.inr (of_decide_eq_true (by with_unfolding_all rfl)))).2⟩

/-- C6: every evaluation that reaches the condition check overwrites the
pair's stored state with the condition outcome (recording deactivation as
well as activation), the resolved metric value, and the fresh check time,
whether or not a trigger fired. -/
theorem state_update_unconditional :
    ∀ (ind : IndicatorStore) (now : ℚ) (sid : ℤ) (sd : SignalDef) (sym : String)
      (md : MarketData) (states : StateMap) (ms os : String) (t v : ℚ),
      sd.trigger_condition.metric = some ms → ms ≠ "" →
      sd.trigger_condition.operator = some os → os ≠ "" →
      sd.trigger_condition.threshold = some t →
      _get_metric_value ind ms sym md
        (sd.trigger_condition.time_window.getD (.secs 60)) = some v →
      ((_check_signal_trigger ind now sid sd sym md states).2 (sid, sym)).map
          (fun st => (st.is_active, st.last_value, st.last_check_time)) =
        some (_evaluate_condition v os t, some v, now) := by
  intro ind now sid sd sym md states ms os t v hm hms ho hos ht hv
  exact (check_signal_trigger_spec ind now sid sd sym md states ms os t v
    hm hms ho hos ht hv).2.1

set_option maxRecDepth 2000 in
/-- C6 witness: a concrete evaluation that fails its condition still records
the outcome, value and time. -/
theorem state_update_unconditional_witness :
    ((_check_signal_trigger (fun _ _ _ => none) 7 1 scenarioS1 "BTC"
        (oiUpdate 500000) (fun _ => none)).2 (1, "BTC")).map
        (fun st => (st.is_active, st.last_value, st.last_check_time)) =
      some (_evaluate_condition 500000 ">" 1000000, some 500000, 7) :=
  state_update_unconditional (fun _ _ _ => none) 7 1 scenarioS1 "BTC"
    (oiUpdate 500000) (fun _ => none) "oi" ">" 1000000 500000 rfl (by decide)
    rfl (by decide) rfl
    (by norm_num [_get_metric_value, _get_oi, oiUpdate, pyTruthy, pyFloat])

/-- Shared skip lemma: a missing required field or an unresolved metric makes
`_check_signal_trigger` return no record and the state store untouched. -/
theorem check_signal_skip :
    ∀ (ind : IndicatorStore) (now : ℚ) (sid : ℤ) (sd : SignalDef) (sym : String)
      (md : MarketData) (states : StateMap),
      ((sd.trigger_condition.metric = none ∨ sd.trigger_condition.metric = some "" ∨
        sd.trigger_condition.operator = none ∨ sd.trigger_condition.operator = some "" ∨
        sd.trigger_condition.threshold = none) →
        _check_signal_trigger ind now sid sd sym md states = (none, states)) ∧
      (∀ ms, sd.trigger_condition.metric = some ms →
        _get_metric_value ind ms sym md
          (sd.trigger_condition.time_window.getD (.secs 60)) = none →
        _check_signal_trigger ind now sid sd sym md states = (none, states)) := by
  intro ind now sid sd sym md states
  constructor
  · intro h
    unfold _check_signal_trigger
    rcases hm : sd.trigger_condition.metric with _ | ms <;>
      rcases ho : sd.trigger_condition.operator with _ | os <;>
        rcases ht : sd.trigger_condition.threshold with _ | t <;>
          simp only [hm, ho, ht] <;>
            try rfl
    rw [hm, ho, ht] at h
    have : ms = "" ∨ os = "" := by
      rcases h with h | h | h | h | h
      · exact absurd h (by simp)
      · exact Or.inl (by injection h)
      · exact absurd h (by simp)
      · exact Or.inr (by injection h)
      · exact absurd h (by simp)
    rw [if_pos this]
  · intro ms hm hres
    unfold _check_signal_trigger
    rcases ho : sd.trigger_condition.operator with _ | os <;>
      rcases ht : sd.trigger_condition.threshold with _ | t <;>
        simp only [hm, ho, ht] <;>
          try rfl
    by_cases hguard : ms = "" ∨ os = ""
    · rw [if_pos hguard]
    · rw [if_neg hguard, hres]

/-- C7: a condition missing a required field (metric, operator or threshold,
with empty strings counting as missing), or a metric that resolves to absent,
produces no trigger record and returns the state store untouched — no entry
is created or mutated. -/
theorem skip_leaves_state_unchanged :
    ∀ (ind : IndicatorStore) (now : ℚ) (sid : ℤ) (sd : SignalDef) (sym : String)
      (md : MarketData) (states : StateMap),
      ((sd.trigger_condition.metric = none ∨ sd.trigger_condition.metric = some "" ∨
        sd.trigger_condition.operator = none ∨ sd.trigger_condition.operator = some "" ∨
        sd.trigger_condition.threshold = none) →
        _check_signal_trigger ind now sid sd sym md states = (none, states)) ∧
      (∀ ms, sd.trigger_condition.metric = some ms →
        _get_metric_value ind ms sym md
          (sd.trigger_condition.time_window.getD (.secs 60)) = none →
        _check_signal_trigger ind now sid sd sym md states = (none, states)) :=
  check_signal_skip

/-- C7 witness: a definition missing its threshold, and a resolvable-free
metric, both skip without touching an arbitrary concrete state store. -/
theorem skip_leaves_state_unchanged_witness :
    _check_signal_trigger (fun _ _ _ => none) 7 1
      ⟨1, some "A", none, ⟨some "oi", some ">", none, none⟩, true⟩ "BTC"
      (oiUpdate 500000) (fun _ => none) = (none, fun _ => none) ∧
    _check_signal_trigger (fun _ _ _ => none) 7 1
      ⟨1, some "B", none, ⟨some "cvd", some ">", some 5, none⟩, true⟩ "BTC"
      (oiUpdate 500000) (fun _ => none) = (none, fun _ => none) :=
  ⟨(skip_leaves_state_unchanged (fun _ _ _ => none) 7 1
      ⟨1, some "A", none, ⟨some "oi", some ">", none, none⟩, true⟩ "BTC"
      (oiUpdate 500000) (fun _ => none)).1
    (Or.inr (Or.inr (Or.inr (Or.inr rfl)))),
   (skip_leaves_state_unchanged (fun _ _ _ => none) 7 1
      ⟨1, some "B", none, ⟨some "cvd", some ">", some 5, none⟩, true⟩ "BTC"
      (oiUpdate 500000) (fun _ => none)).2 "cvd" rfl rfl⟩

/-- C10: a threshold equal to 0 (with metric and operator present and
nonempty) is not treated as malformed: the guard passes, the metric is
resolved, the operator is applied against 0, the edge state is refreshed, and
a record fires exactly on a rising edge — exactly as for any other
threshold. -/
theorem zero_threshold_evaluated :
    ∀ (ind : IndicatorStore) (now : ℚ) (sid : ℤ) (sd : SignalDef) (sym : String)
      (md : MarketData) (states : StateMap) (ms os : String) (v : ℚ),
      sd.trigger_condition.metric = some ms → ms ≠ "" →
      sd.trigger_condition.operator = some os → os ≠ "" →
      sd.trigger_condition.threshold = some 0 →
      _get_metric_value ind ms sym md
        (sd.trigger_condition.time_window.getD (.secs 60)) = some v →
      ((_check_signal_trigger ind now sid sd sym md states).1 =
        if _evaluate_condition v os 0 && !pairActive states (sid, sym) then
          some ⟨sid, sd.signal_name, sym, v, 0, os, ms, now, sd.description⟩
        else none) ∧
      ((_check_signal_trigger ind now sid sd sym md states).2 (sid, sym)).map
          (fun st => (st.is_active, st.last_value, st.last_check_time)) =
        some (_evaluate_condition v os 0, some v, now) := by
  intro ind now sid sd sym md states ms os v hm hms ho hos ht hv
  have h := check_signal_trigger_spec ind now sid sd sym md states ms os 0 v
    hm hms ho hos ht hv
  exact ⟨h.1, h.2.1⟩

/-- C10 witness: threshold 0 with operator ">" fires on a positive value from
an inactive state. -/
theorem zero_threshold_evaluated_witness :
    ((_check_signal_trigger (fun _ _ _ => none) 7 1
        ⟨1, some "Z", none, ⟨some "oi", some ">", some 0, none⟩, true⟩ "BTC"
        (oiUpdate 500000) (fun _ => none)).1 =
      if _evaluate_condition 500000 ">" 0 && !pairActive (fun _ => none) (1, "BTC") then
        some ⟨1, some "Z", "BTC", 500000, 0, ">", "oi", 7, none⟩
      else none) ∧
    ((_check_signal_trigger (fun _ _ _ => none) 7 1
        ⟨1, some "Z", none, ⟨some "oi", some ">", some 0, none⟩, true⟩ "BTC"
        (oiUpdate 500000) (fun _ => none)).2 (1, "BTC")).map
        (fun st => (st.is_active, st.last_value, st.last_check_time)) =
      some (_evaluate_condition 500000 ">" 0, some 500000, 7) :=
  zero_threshold_evaluated (fun _ _ _ => none) 7 1
    ⟨1, some "Z", none, ⟨some "oi", some ">", some 0, none⟩, true⟩ "BTC"
    (oiUpdate 500000) (fun _ => none) "oi" ">" 500000 rfl (by decide) rfl
    (by decide) rfl
    (by norm_num [_get_metric_value, _get_oi, oiUpdate, pyTruthy, pyFloat])

/-- C9 counterexample: with a TTL-expired cache, a pools query that succeeds
followed by a signals query that fails leaves the snapshot half-replaced: the
pools cache already holds the fresh pools (it is assigned before the second
query runs) even though the refresh as a whole failed, refuting "the entire
stale snapshot is retained unchanged". The timestamp is not advanced. -/
theorem cache_refresh_counterexample :
    (_refresh_cache_if_needed
        ⟨60, .ok [scenarioPool], .error (), fun _ _ _ => none⟩
        ⟨fun _ => none, [], [], 0⟩)._signal_pools_cache = [scenarioPool] ∧
    (_refresh_cache_if_needed
        ⟨60, .ok [scenarioPool], .error (), fun _ _ _ => none⟩
        ⟨fun _ => none, [], [], 0⟩)._cache_time = 0 :=
  of_decide_eq_true (by with_unfolding_all rfl)

/-- C9 amended: a refresh is attempted iff `now - lastRefresh ≥ ttl`; when
both queries succeed the snapshot is replaced and the timestamp advanced,
even if empty; when the pools query fails the whole state is retained; when
the signals query fails after the pools query succeeded, the pools cache is
replaced while the signal definitions and the timestamp are retained (so the
next access retries); no error is raised in any case. -/
theorem cache_refresh_amended :
    ∀ (env : Env) (s : ServiceState),
      (env.now - s._cache_time < _cache_ttl →
        _refresh_cache_if_needed env s = s) ∧
      (¬(env.now - s._cache_time < _cache_ttl) →
        (∀ pools sigs, env.fetchPools = .ok pools → env.fetchSignals = .ok sigs →
          _refresh_cache_if_needed env s =
            { s with
                _signal_pools_cache := pools
                _signals_cache := sigs
                _cache_time := env.now }) ∧
        (∀ e, env.fetchPools = .error e →
          _refresh_cache_if_needed env s = s) ∧
        (∀ pools e, env.fetchPools = .ok pools → env.fetchSignals = .error e →
          _refresh_cache_if_needed env s =
            { s with _signal_pools_cache := pools })) := by
  intro env s
  constructor
  · intro h
    unfold _refresh_cache_if_needed
    rw [if_pos h]
  · intro hn
    refine ⟨fun pools sigs hp hs => ?_, fun e hp => ?_, fun pools e hp hs => ?_⟩ <;>
      simp only [_refresh_cache_if_needed, if_neg hn, hp]
    · simp only [hs]
    · simp only [hs]

/-- C9 witness: a fresh cache skips the refresh; an expired cache with both
queries succeeding replaces the snapshot and advances the timestamp. -/
theorem cache_refresh_amended_witness :
    _refresh_cache_if_needed
        ⟨120, .ok [], .ok [], fun _ _ _ => none⟩ scenarioInit = scenarioInit ∧
    _refresh_cache_if_needed
        ⟨200, .ok [], .ok [], fun _ _ _ => none⟩ scenarioInit =
      { scenarioInit with
          _signal_pools_cache := []
          _signals_cache := []
          _cache_time := 200 } :=
  ⟨(cache_refresh_amended ⟨120, .ok [], .ok [], fun _ _ _ => none⟩ scenarioInit).1
      (of_decide_eq_true (by with_unfolding_all rfl)),
   ((cache_refresh_amended ⟨200, .ok [], .ok [], fun _ _ _ => none⟩ scenarioInit).2
      (of_decide_eq_true (by with_unfolding_all rfl))).1 [] [] rfl rfl⟩

/-- A defined condition outcome forces a well-formed condition triple and a
resolved metric value, and equals the operator evaluation on that value. -/
theorem condMetOn_isSome_elim (ind : IndicatorStore) (sd : SignalDef)
    (sym : String) (md : MarketData)
    (h : (condMetOn ind sd sym md).isSome = true) :
    ∃ ms os t v, sd.trigger_condition.metric = some ms ∧
      sd.trigger_condition.operator = some os ∧
      sd.trigger_condition.threshold = some t ∧
      _get_metric_value ind ms sym md
        (sd.trigger_condition.time_window.getD (.secs 60)) = some v ∧
      condMetOn ind sd sym md = some (_evaluate_condition v os t) := by
  rcases hm : sd.trigger_condition.metric with _ | ms <;>
    rcases ho : sd.trigger_condition.operator with _ | os <;>
      rcases ht : sd.trigger_condition.threshold with _ | t <;>
        rw [condMetOn, hm, ho, ht] at h <;>
          try simp at h
  cases hv : _get_metric_value ind ms sym md
      (sd.trigger_condition.time_window.getD (.secs 60)) with
  | none =>
    rw [hv] at h
    simp at h
  | some v =>
    refine ⟨ms, os, t, v, rfl, rfl, rfl, hv, ?_⟩
    rw [condMetOn, hm, ho, ht]
    show Option.map (fun v => _evaluate_condition v os t)
      (_get_metric_value ind ms sym md
        (sd.trigger_condition.time_window.getD (.secs 60))) = _
    rw [hv]
    rfl

/-- Reading back the activation flag from the field-level description of a
stored entry. -/
theorem pairActive_of_map_eq (m : StateMap) (k : ℤ × String) (b : Bool)
    (lv : Option ℚ) (lt : ℚ)
    (h : (m k).map (fun st => (st.is_active, st.last_value, st.last_check_time)) =
      some (b, lv, lt)) :
    pairActive m k = b := by
  cases hk : m k with
  | none =>
    rw [hk] at h
    simp at h
  | some st =>
    rw [hk] at h
    simp only [Option.map_some', Option.some.injEq, Prod.mk.injEq] at h
    rw [pairActive, hk]
    exact h.1

/-- C1: edge-trigger law over every evaluation sequence of a fixed
(signal, symbol) pair. Whenever the condition outcome is defined at each
step, a trigger record is produced at a step iff the outcome is true there
and the stored activation flag was false beforehand — the flag after each
step being that step's outcome. `specEdgeOutputs` phrases exactly this law,
from which the one-record-per-run-of-trues and re-arm consequences follow. -/
theorem edge_trigger_iff_law :
    ∀ (ind : IndicatorStore) (sid : ℤ) (sd : SignalDef) (sym : String)
      (evals : List (ℚ × MarketData)) (states : StateMap),
      sd.trigger_condition.metric ≠ some "" →
      sd.trigger_condition.operator ≠ some "" →
      (∀ e ∈ evals, (condMetOn ind sd sym e.2).isSome = true) →
      (runPair ind sid sd sym evals states).1.map Option.isSome =
        specEdgeOutputs (pairActive states (sid, sym))
          (evals.map (fun e => (condMetOn ind sd sym e.2).getD false)) := by
  intro ind sid sd sym evals
  induction evals with
  | nil =>
    intro states hms hos h
    rfl
  | cons e rest ih =>
    obtain ⟨now, md⟩ := e
    intro states hms hos h
    have hhead := h (now, md) (List.mem_cons_self _ _)
    obtain ⟨ms, os, t, v, hm, ho, ht, hv, hcond⟩ :=
      condMetOn_isSome_elim ind sd sym md hhead
    have hmsne : ms ≠ "" := by
      intro hcontra
      rw [hcontra] at hm
      exact hms hm
    have hosne : os ≠ "" := by
      intro hcontra
      rw [hcontra] at ho
      exact hos ho
    obtain ⟨h1, h2, h3⟩ := check_signal_trigger_spec ind now sid sd sym md states
      ms os t v hm hmsne ho hosne ht hv
    have hact : pairActive
        (_check_signal_trigger ind now sid sd sym md states).2 (sid, sym) =
        _evaluate_condition v os t :=
      pairActive_of_map_eq _ _ _ _ _ h2
    have htail := ih (_check_signal_trigger ind now sid sd sym md states).2
      hms hos (fun e he => h e (List.mem_cons_of_mem _ he))
    simp only [runPair, List.map_cons]
    rw [htail, hact, hcond]
    simp only [Option.getD_some]
    congr 1
    rw [h1]
    cases hb : (_evaluate_condition v os t && !pairActive states (sid, sym)) <;>
      simp [hb]

set_option maxRecDepth 2000 in
/-- C1 witness: two consecutive true outcomes from a fresh state produce a
record at the first evaluation only. -/
theorem edge_trigger_iff_law_witness :
    (runPair (fun _ _ _ => none) 1 scenarioS1 "BTC"
        [(7, oiUpdate 1100000), (8, oiUpdate 1200000)]
        (fun _ => none)).1.map Option.isSome = [true, false] := by
  have hc1 : condMetOn (fun _ _ _ => none) scenarioS1 "BTC" (oiUpdate 1100000) =
      some true := by
    with_unfolding_all rfl
  have hc2 : condMetOn (fun _ _ _ => none) scenarioS1 "BTC" (oiUpdate 1200000) =
      some true := by
    with_unfolding_all rfl
  have h := edge_trigger_iff_law (fun _ _ _ => none) 1 scenarioS1 "BTC"
    [(7, oiUpdate 1100000), (8, oiUpdate 1200000)] (fun _ => none)
    (by decide) (by decide) ?_
  · rw [h]
    simp [hc1, hc2, specEdgeOutputs, pairActive]
  · intro e he
    fin_cases he
    · show (condMetOn (fun _ _ _ => none) scenarioS1 "BTC"
        (oiUpdate 1100000)).isSome = true
      rw [hc1]
      rfl
    · show (condMetOn (fun _ _ _ => none) scenarioS1 "BTC"
        (oiUpdate 1200000)).isSome = true
      rw [hc2]
      rfl

/-- C8: per-signal failures are isolated and the batch never aborts. For any
pool listing a malformed signal A (threshold missing) alongside a well-formed
signal B on the same symbol, `detect_signals` still returns B's trigger
record; in this embedding every helper contains its own failures, so
`detect_signals` is a total function of its inputs — the top-level call never
raises and always returns the list of records that succeeded. -/
theorem malformed_signal_isolated :
    ∀ (env : Env) (states : StateMap) (sym : String) (md : MarketData)
      (idA idB pid : ℤ) (pname : String) (defA defB : SignalDef)
      (cache_time : ℚ) (ms os : String) (t v : ℚ),
      env.now - cache_time < _cache_ttl →
      defA.id = idA → defA.trigger_condition.threshold = none →
      defB.id = idB → defB.enabled = true →
      idA ≠ idB →
      defB.trigger_condition.metric = some ms → ms ≠ "" →
      defB.trigger_condition.operator = some os → os ≠ "" →
      defB.trigger_condition.threshold = some t →
      _get_metric_value env.indicators ms sym md
        (defB.trigger_condition.time_window.getD (.secs 60)) = some v →
      _evaluate_condition v os t = true →
      pairActive states (idB, sym) = false →
      (detect_signals env
          ⟨states, [⟨pid, pname, [idA, idB], [sym], true⟩], [defA, defB], cache_time⟩
          sym md).1 =
        [⟨idB, defB.signal_name, sym, v, t, os, ms, env.now, defB.description⟩] := by
  intro env states sym md idA idB pid pname defA defB cache_time ms os t v
    httl hidA hthrA hidB henB hne hm hms ho hos ht hv heval hpair
  have hrefresh : _refresh_cache_if_needed env
      ⟨states, [⟨pid, pname, [idA, idB], [sym], true⟩], [defA, defB], cache_time⟩ =
      ⟨states, [⟨pid, pname, [idA, idB], [sym], true⟩], [defA, defB], cache_time⟩ := by
    unfold _refresh_cache_if_needed
    exact if_pos httl
  have hdedup : ([idA, idB] : List ℤ).dedup = [idA, idB] := by
    rw [List.dedup_cons_of_not_mem, List.dedup_cons_of_not_mem, List.dedup_nil]
    · simp
    · simp [List.dedup_nil, hne]
  have hlookA : sigLookup [defA, defB] idA = some defA := by
    simp [sigLookup, List.find?, hidA, hidB, Ne.symm hne]
  have hlookB : sigLookup [defA, defB] idB = some defB := by
    simp [sigLookup, List.find?, hidB]
  have hstepA : detectStep env [defA, defB] sym md ([], states) idA = ([], states) := by
    unfold detectStep
    rw [hlookA]
    cases hA : defA.enabled with
    | false => simp [hA]
    | true =>
      simp only [hA]
      rw [(check_signal_skip env.indicators env.now idA defA sym md states).1
        (Or.inr (Or.inr (Or.inr (Or.inr hthrA))))]
      simp
  obtain ⟨h1, h2, h3⟩ := check_signal_trigger_spec env.indicators env.now idB defB
    sym md states ms os t v hm hms ho hos ht hv
  rw [heval, hpair] at h1
  simp only [Bool.not_false, Bool.and_self, if_true] at h1
  have hstepB : detectStep env [defA, defB] sym md ([], states) idB =
      ([⟨idB, defB.signal_name, sym, v, t, os, ms, env.now, defB.description⟩],
        (_check_signal_trigger env.indicators env.now idB defB sym md states).2) := by
    unfold detectStep
    rw [hlookB]
    simp only [henB]
    rcases hres : _check_signal_trigger env.indicators env.now idB defB sym md states
      with ⟨r1, r2⟩
    rw [hres] at h1
    simp only at h1
    rw [h1]
    simp
  unfold detect_signals
  rw [hrefresh]
  simp only [List.filter, List.mem_singleton, decide_True, Bool.and_true]
  simp only [List.isEmpty, List.flatMap]
  simp [hdedup, List.foldl, hstepA, hstepB]

/-- C8 witness: a concrete malformed A (missing threshold) alongside S1 on
the same symbol does not prevent S1 from triggering. -/
theorem malformed_signal_isolated_witness :
    (detect_signals scenarioEnv
        ⟨fun _ => none, [⟨1, "P", [2, 1], ["BTC"], true⟩],
          [⟨2, some "A", none, ⟨some "oi", some ">", none, none⟩, true⟩, scenarioS1],
          100⟩
        "BTC" (oiUpdate 1100000)).1 =
      [⟨1, some "S1", "BTC", 1100000, 1000000, ">", "oi", 100, none⟩] :=
  malformed_signal_isolated scenarioEnv (fun _ => none) "BTC" (oiUpdate 1100000)
    2 1 1 "P" ⟨2, some "A", none, ⟨some "oi", some ">", none, none⟩, true⟩
    scenarioS1 100 "oi" ">" 1000000 1100000
    (of_decide_eq_true (by with_unfolding_all rfl))
    rfl rfl rfl rfl (by decide) rfl (by decide) rfl (by decide) rfl
    (by norm_num [scenarioEnv, _get_metric_value, _get_oi, oiUpdate, pyTruthy, pyFloat])
    (by decide) rfl
